import Mathlib

/-! Verification of the Chicago taxi fare app (src/app.py) against its
natural-language specification.

Numeric embedding: the program's float64 values are modelled as exact
rationals (ℚ).  Every rational is finite, so "finite float64" claims are
about totality of the corresponding Lean functions; rounding behaviour is
outside the scope of this embedding.

The repository's src/ holds only the Streamlit presentation layer
(app.py).  The core model — the pickled `river` pipeline of a streaming
feature scaler chained with an online linear regression — is produced by
training code that is not part of src/, so the core operations below are
modelled from the spec (each such definition says so in its doc comment).
The app.py glue (resource loading, the trip form, the two tabs) is
embedded directly from the source.
-/

namespace TaxiFare

/-- RawFeatures (spec §3): fixed record of the four named numeric trip
fields, one per key of the `x_input` dictionary in app.py: distance in
km, duration in minutes, hour-of-day, day-of-week.  Also reused as the
shape of encoded feature vectors and of the weight vector, which have one
value per raw field. -/
structure Features where
  km : ℚ
  min : ℚ
  hour : ℚ
  day : ℚ
  deriving DecidableEq

/-- Modelled from the spec: the RawFeatures field-range invariant (spec
§3, §7): hour in [0,23], day in [0,6]; the finiteness requirement on the
numeric fields holds by construction in the ℚ embedding. -/
def Features.valid (x : Features) : Prop :=
  0 ≤ x.hour ∧ x.hour ≤ 23 ∧ 0 ≤ x.day ∧ x.day ≤ 6

instance (x : Features) : Decidable x.valid := by
  unfold Features.valid; infer_instance

/-- EncoderState, per field (spec §3, §4.1): running count, mean and the
Welford sum of squared deviations (M2), the sufficient statistics for
streaming standardization. -/
structure FieldStats where
  count : ℕ
  mean : ℚ
  m2 : ℚ
  deriving DecidableEq

/-- Modelled from the spec: one Welford update step (spec §4.1 `update`),
incorporating a single observation into the running statistics. -/
def FieldStats.update (s : FieldStats) (v : ℚ) : FieldStats :=
  let n := s.count + 1
  let delta := v - s.mean
  let mean2 := s.mean + delta / (n : ℚ)
  { count := n, mean := mean2, m2 := s.m2 + delta * (v - mean2) }

/-- Running variance recovered from the Welford statistics; 0 before any
observation (that case is unused: `std` falls back to pass-through). -/
def FieldStats.variance (s : FieldStats) : ℚ :=
  if s.count = 0 then 0 else s.m2 / (s.count : ℚ)

/-- Configuration of the modelled core: the square-root routine used by
the scaler (kept abstract — the proofs hold for any choice, and concrete
witnesses instantiate it), the learning rate, and the ε guard added to
the variance before the square root. -/
structure ModelConfig where
  sqrtFn : ℚ → ℚ
  lr : ℚ
  eps : ℚ

/-- Modelled from the spec: standardization of one field (spec §4.1
`transform`): `(value - running_mean) / sqrt(running_variance + ε)`;
before any statistics exist (count = 0) the raw value passes through
unmodified (the fallback fixed by spec §9). -/
def FieldStats.std (cfg : ModelConfig) (s : FieldStats) (v : ℚ) : ℚ :=
  if s.count = 0 then v else (v - s.mean) / cfg.sqrtFn (s.variance + cfg.eps)

/-- EncoderState (spec §3): running statistics for each of the four
fields. -/
structure EncoderState where
  km : FieldStats
  min : FieldStats
  hour : FieldStats
  day : FieldStats
  deriving DecidableEq

/-- Modelled from the spec: `update(raw)` (spec §4.1) — incorporate one
observation into the running statistics of every field. -/
def EncoderState.update (e : EncoderState) (x : Features) : EncoderState :=
  { km := e.km.update x.km, min := e.min.update x.min,
    hour := e.hour.update x.hour, day := e.day.update x.day }

/-- Modelled from the spec: `transform(raw) -> encoded` (spec §4.1) —
standardize every field with its current running statistics. -/
def EncoderState.transform (cfg : ModelConfig) (e : EncoderState) (x : Features) : Features :=
  { km := e.km.std cfg x.km, min := e.min.std cfg x.min,
    hour := e.hour.std cfg x.hour, day := e.day.std cfg x.day }

/-- ModelWeights (spec §3): one weight per encoded feature plus an
intercept. -/
structure ModelWeights where
  w : Features
  intercept : ℚ
  deriving DecidableEq

/-- Dot product of two four-field vectors. -/
def dot (a b : Features) : ℚ :=
  a.km * b.km + a.min * b.min + a.hour * b.hour + a.day * b.day

/-- Modelled from the spec: `predict(encoded)` (spec §4.2) — dot product
of the weights with the encoded features, plus the intercept.  Pure: no
state is read besides the weights and none is written. -/
def ModelWeights.predict (mw : ModelWeights) (e : Features) : ℚ :=
  dot mw.w e + mw.intercept

/-- Modelled from the spec: `fit_one(encoded, actual_fare)` (spec §4.2) —
exactly one stochastic-gradient step for squared-error loss: each weight
moves by `lr * error * encoded_i` and the intercept by `lr * error`. -/
def ModelWeights.fit_one (cfg : ModelConfig) (mw : ModelWeights) (e : Features)
    (actual : ℚ) : ModelWeights :=
  let err := actual - mw.predict e
  { w := { km := mw.w.km + cfg.lr * err * e.km,
           min := mw.w.min + cfg.lr * err * e.min,
           hour := mw.w.hour + cfg.lr * err * e.hour,
           day := mw.w.day + cfg.lr * err * e.day },
    intercept := mw.intercept + cfg.lr * err }

/-- ModelArtifact (spec §3): EncoderState plus ModelWeights, the unit of
persistence. -/
structure ModelArtifact where
  enc : EncoderState
  weights : ModelWeights
  deriving DecidableEq

/-- Zeroed per-field statistics at model creation (count = 0). -/
def freshStats : FieldStats := { count := 0, mean := 0, m2 := 0 }

/-- Modelled from the spec: the freshly created model (spec §3, §4.2):
empty encoder statistics, all weights and the intercept zero. -/
def freshModel : ModelArtifact :=
  { enc := { km := freshStats, min := freshStats, hour := freshStats, day := freshStats },
    weights := { w := { km := 0, min := 0, hour := 0, day := 0 }, intercept := 0 } }

/-- Prediction pipeline on already-validated input: encode with the
current statistics, then apply the linear model (spec §2 control flow). -/
def ModelArtifact.predict_one (cfg : ModelConfig) (m : ModelArtifact) (x : Features) : ℚ :=
  m.weights.predict (m.enc.transform cfg x)

/-- Training pipeline on already-validated input (spec §2): the encoder
updates its running statistics, transforms the features, and the
regressor takes one gradient step. -/
def ModelArtifact.learn_one (cfg : ModelConfig) (m : ModelArtifact) (x : Features)
    (actual : ℚ) : ModelArtifact :=
  let enc2 := m.enc.update x
  let e := enc2.transform cfg x
  { enc := enc2, weights := m.weights.fit_one cfg e actual }

/-- Error taxonomy of the core interface (spec §7). -/
inductive ModelError where
  | malformedInput
  deriving DecidableEq

/-- Modelled from the spec: `Predict(RawFeatures)` (spec §6, §7): reject
a RawFeatures value violating the field-range invariant before it
reaches the encoder; otherwise return the fare estimate. -/
def Predict (cfg : ModelConfig) (m : ModelArtifact) (x : Features) : Except ModelError ℚ :=
  if x.valid then .ok (m.predict_one cfg x) else .error .malformedInput

/-- Modelled from the spec: `Train(RawFeatures, actual_fare)` (spec §6,
§7): reject malformed input before it reaches the encoder; otherwise
update the state by one training step and return no value (the new state
only). -/
def Train (cfg : ModelConfig) (m : ModelArtifact) (x : Features)
    (actual : ℚ) : Except ModelError ModelArtifact :=
  if x.valid then .ok (m.learn_one cfg x actual) else .error .malformedInput

/-- Serialized model blob as held by the pickle file
`modelo_taxi_fare.pkl` (app.py line 36): the ModelArtifact payload
together with a format version tag.  The tag field is modelled from the
spec persistence contract (spec §6); the loader in app.py is plain
`pickle.load` and never inspects it. -/
structure Blob where
  versionTag : ℕ
  payload : ModelArtifact
  deriving DecidableEq

/-- Format version the spec persistence contract would have the loader
check (spec §6).  Modelled from the spec; app.py contains no such
constant. -/
def expectedVersion : ℕ := 1

/-- Embedding of `pickle.load(f)` (app.py line 37): materializes whatever
blob the file holds, unchanged; a missing file is `none`
(`FileNotFoundError` in the source). -/
def pickleLoad (file : Option Blob) : Option Blob := file

/-- Row of `gold_stats_hour.csv`: columns `Hour` and `Avg_Fare`. -/
structure HourRow where
  hour : ℚ
  avgFare : ℚ
  deriving DecidableEq

/-- Row of `gold_stats_day.csv`: columns `Day` and `Total_Trips`. -/
structure DayRow where
  day : String
  totalTrips : ℚ
  deriving DecidableEq

/-- External world as load_resources sees it: the local pickle file
(`none` = absent) and the two Gold CSVs on GCS (`none` = the read
raises). -/
structure Env where
  modelFile : Option Blob
  gcsHour : Option (List HourRow)
  gcsDay : Option (List DayRow)

/-- Embedding of `load_resources` (app.py lines 27-55): load the pickle;
on `FileNotFoundError` return the all-None triple; if either GCS read
fails, fall back to two empty DataFrames so the app does not crash. -/
def load_resources (env : Env) : Option (ModelArtifact × List HourRow × List DayRow) :=
  match pickleLoad env.modelFile with
  | none => none
  | some b =>
    match env.gcsHour, env.gcsDay with
    | some h, some d => some (b.payload, h, d)
    | _, _ => some (b.payload, [], [])

/-- Startup failure of the app: the UninitializedModel condition of spec
§7, reached when the model file is absent (app.py lines 61-64: the error
banner followed by `st.stop()`). -/
inductive StartupError where
  | uninitializedModel
  deriving DecidableEq

/-- App state after a successful startup: the loaded model and the two
Gold tables. -/
structure RunningApp where
  model : ModelArtifact
  dfHour : List HourRow
  dfDay : List DayRow
  deriving DecidableEq

/-- Embedding of the startup sequence (app.py lines 58-64): run
load_resources; if the model is None, show the critical error and halt
(`st.stop`), otherwise continue with the loaded resources. -/
def appStartup (env : Env) : Except StartupError RunningApp :=
  match load_resources env with
  | none => .error .uninitializedModel
  | some (m, h, d) => .ok { model := m, dfHour := h, dfDay := d }

/-- Day-of-week options of the selectbox (app.py lines 88-89). -/
inductive DayName where
  | monday | tuesday | wednesday | thursday | friday | saturday | sunday
  deriving DecidableEq

/-- Embedding of `day_map` (app.py lines 95-98). -/
def day_map : DayName → ℕ
  | .monday => 0
  | .tuesday => 1
  | .wednesday => 2
  | .thursday => 3
  | .friday => 4
  | .saturday => 5
  | .sunday => 6

/-- State of the trip form (app.py lines 78-91): the distance
number_input, the integer duration number_input, the hour slider, and
the day selectbox. -/
structure TripForm where
  distance : ℚ
  duration : ℤ
  hour : ℤ
  dayText : DayName

/-- Ranges the Streamlit widgets enforce on the submitted form (app.py
lines 82-86): distance in [0.1, 200.0], duration in [1, 300], hour in
[0, 23]; the day selectbox is total by construction of `DayName`. -/
def TripForm.widgetValid (f : TripForm) : Prop :=
  1/10 ≤ f.distance ∧ f.distance ≤ 200 ∧
  1 ≤ f.duration ∧ f.duration ≤ 300 ∧
  0 ≤ f.hour ∧ f.hour ≤ 23

instance (f : TripForm) : Decidable f.widgetValid := by
  unfold TripForm.widgetValid; infer_instance

/-- Embedding of the `x_input` dictionary (app.py lines 101-106): the
four form fields coerced to float, the day through `day_map`. -/
def x_input (f : TripForm) : Features :=
  { km := f.distance, min := (f.duration : ℚ),
    hour := (f.hour : ℚ), day := ((day_map f.dayText : ℕ) : ℚ) }

/-- Elements Streamlit renders in tab 1 after the form is submitted, in
order: the success banner with the estimated fare, the comparison
metrics (estimate, historical average, difference), or the
`Prediction Error` banner from the except-branch. -/
inductive Display where
  | success (fare : ℚ)
  | comparison (est histAvg diff : ℚ)
  | errorMsg
  deriving DecidableEq

/-- Embedding of the tab-1 submit handler (app.py lines 93-129): build
`x_input`, call the model, display the estimate; when the hourly table is
non-empty look up `df_hour[df_hour[Hour] == hour][Avg_Fare].values[0]`
— an empty lookup result makes `.values[0]` raise, and the surrounding
try/except then shows `Prediction Error` (after the success banner was
already rendered). -/
def tab1Run (cfg : ModelConfig) (m : ModelArtifact) (dfHour : List HourRow)
    (f : TripForm) : List Display :=
  match Predict cfg m (x_input f) with
  | .error _ => [.errorMsg]
  | .ok p =>
    if dfHour.isEmpty then [.success p]
    else
      match (dfHour.filter fun r => decide (r.hour = (f.hour : ℚ))).head? with
      | some r => [.success p, .comparison p r.avgFare (p - r.avgFare)]
      | none => [.success p, .errorMsg]

/-- Fare shown by the success banner of a tab-1 run, if any. -/
def shownFare : List Display → Option ℚ
  | [] => none
  | .success p :: _ => some p
  | _ :: rest => shownFare rest

/-- Outcome of tab 2 (app.py lines 134-165): the Gold-data warning when
either table is empty, otherwise the dashboard; of its KPIs we carry the
global average fare (the remaining KPIs and the charts are pure
rendering). -/
inductive Tab2Outcome where
  | goldWarning
  | dashboard (globalAvg : ℚ)
  deriving DecidableEq

/-- Embedding of the tab-2 branch (app.py lines 137-150). -/
def tab2Run (dfHour : List HourRow) (dfDay : List DayRow) : Tab2Outcome :=
  if dfHour.isEmpty || dfDay.isEmpty then .goldWarning
  else .dashboard ((dfHour.map (·.avgFare)).sum / (dfHour.length : ℚ))

/-- End-to-end serving: a prediction request reaches tab 1 only when
startup did not halt; after `st.stop()` nothing is served. -/
def appServe (cfg : ModelConfig) (env : Env) (f : TripForm) : Option (List Display) :=
  match appStartup env with
  | .error _ => none
  | .ok app => some (tab1Run cfg app.model app.dfHour f)

/-! Helper lemmas on the freshly created model. -/

theorem update_freshStats (v : ℚ) :
    freshStats.update v = { count := 1, mean := v, m2 := 0 } := by
  simp [FieldStats.update, freshStats]

theorem std_freshStats (cfg : ModelConfig) (v : ℚ) :
    freshStats.std cfg v = v := by
  simp [FieldStats.std, freshStats]

theorem std_after_one (cfg : ModelConfig) (v : ℚ) :
    FieldStats.std cfg { count := 1, mean := v, m2 := 0 } v = 0 := by
  simp [FieldStats.std]

theorem transform_fresh (cfg : ModelConfig) (x : Features) :
    freshModel.enc.transform cfg x = x := by
  simp [freshModel, EncoderState.transform, std_freshStats]

theorem predict_one_fresh (cfg : ModelConfig) (x : Features) :
    freshModel.predict_one cfg x = 0 := by
  simp [ModelArtifact.predict_one, transform_fresh, freshModel,
    ModelWeights.predict, dot]

theorem enc_update_fresh (x : Features) :
    freshModel.enc.update x =
      { km := { count := 1, mean := x.km, m2 := 0 },
        min := { count := 1, mean := x.min, m2 := 0 },
        hour := { count := 1, mean := x.hour, m2 := 0 },
        day := { count := 1, mean := x.day, m2 := 0 } } := by
  simp [freshModel, EncoderState.update, update_freshStats]

theorem transform_after_first (cfg : ModelConfig) (x : Features) :
    (freshModel.enc.update x).transform cfg x =
      { km := 0, min := 0, hour := 0, day := 0 } := by
  simp [enc_update_fresh, EncoderState.transform, std_after_one]

theorem learn_one_fresh (cfg : ModelConfig) (x : Features) (a : ℚ) :
    freshModel.learn_one cfg x a =
      { enc := freshModel.enc.update x,
        weights := { w := { km := 0, min := 0, hour := 0, day := 0 },
                     intercept := cfg.lr * a } } := by
  simp only [ModelArtifact.learn_one, transform_after_first]
  simp [freshModel, ModelWeights.fit_one, ModelWeights.predict, dot]

theorem predict_one_after_learn_fresh (cfg : ModelConfig) (x : Features) (a : ℚ) :
    (freshModel.learn_one cfg x a).predict_one cfg x = cfg.lr * a := by
  rw [learn_one_fresh]
  simp [ModelArtifact.predict_one, transform_after_first,
    ModelWeights.predict, dot]

/-! Concrete instances used by witnesses: an arbitrary concrete
square-root routine (its value is irrelevant to every property proved
here), the scenario learning rate 0.01, and the scenario trip
{km: 5.0, min: 15, hour: 14, day: 2}. -/

/-- Concrete model configuration for witnesses: learning rate 1/100. -/
def cfg0 : ModelConfig := { sqrtFn := fun _ => 1, lr := 1/100, eps := 1/1000000 }

/-- Concrete scenario input of spec §8. -/
def x0 : Features := { km := 5, min := 15, hour := 14, day := 2 }

/-- C1: for every valid RawFeatures input, Predict returns a (finite, in
the ℚ embedding) fare estimate and never an error, and on the freshly
created model it returns 0 before any training. -/
theorem C1_predict_total_fresh_zero (cfg : ModelConfig) (m : ModelArtifact)
    (x : Features) (hx : x.valid) :
    (∃ q : ℚ, Predict cfg m x = .ok q) ∧ Predict cfg freshModel x = .ok 0 := by
  refine ⟨⟨m.predict_one cfg x, ?_⟩, ?_⟩
  · simp [Predict, hx]
  · simp [Predict, hx, predict_one_fresh]

/-- Witness for C1 at the concrete scenario input. -/
theorem C1_predict_total_fresh_zero_witness :
    (∃ q : ℚ, Predict cfg0 freshModel x0 = .ok q) ∧
    Predict cfg0 freshModel x0 = .ok 0 :=
  C1_predict_total_fresh_zero cfg0 freshModel x0 (by decide)

/-- C2: an input violating the field-range invariant is rejected by both
Predict and Train with MalformedInput, independently of the model state
(so before any encoder statistics are consulted, never clamped); hour 0
and 23 and day 0 and 6 are accepted, hour 24, hour -1 and day 7 are
rejected. -/
theorem C2_malformed_fail_fast :
    (∀ (cfg : ModelConfig) (m m2 : ModelArtifact) (x : Features) (a : ℚ),
       ¬ x.valid →
       Predict cfg m x = .error .malformedInput ∧
       Predict cfg m x = Predict cfg m2 x ∧
       Train cfg m x a = .error .malformedInput) ∧
    Features.valid { km := 5, min := 15, hour := 0, day := 2 } ∧
    Features.valid { km := 5, min := 15, hour := 23, day := 2 } ∧
    ¬ Features.valid { km := 5, min := 15, hour := 24, day := 2 } ∧
    ¬ Features.valid { km := 5, min := 15, hour := -1, day := 2 } ∧
    Features.valid { km := 5, min := 15, hour := 14, day := 0 } ∧
    Features.valid { km := 5, min := 15, hour := 14, day := 6 } ∧
    ¬ Features.valid { km := 5, min := 15, hour := 14, day := 7 } := by
  refine ⟨?_, by decide, by decide, by decide, by decide, by decide, by decide, by decide⟩
  intro cfg m m2 x a hx
  exact ⟨by simp [Predict, hx], by simp [Predict, hx], by simp [Train, hx]⟩

/-- Witness for C2 at the rejected boundary input hour = 24. -/
theorem C2_malformed_fail_fast_witness :
    Predict cfg0 freshModel { km := 5, min := 15, hour := 24, day := 2 } =
      .error .malformedInput ∧
    Train cfg0 freshModel { km := 5, min := 15, hour := 24, day := 2 } (25/2) =
      .error .malformedInput :=
  ⟨(C2_malformed_fail_fast.1 cfg0 freshModel freshModel _ (25/2) (by decide)).1,
   (C2_malformed_fail_fast.1 cfg0 freshModel freshModel _ (25/2) (by decide)).2.2⟩

/-- C6 counterexample: the claim quantifies over every learning rate
greater than 0, but at learning rate 2 (with the scenario input and
actual_fare 12.50) the fresh-model prediction is 0, one Train step
makes the subsequent prediction 25, and 25 is not strictly closer to
12.50 than 0 was — refuting the claim as stated. -/
theorem C6_counterexample :
    (0 : ℚ) < 2 ∧ x0.valid ∧ (25/2 : ℚ) ≠ 0 ∧
    Predict { sqrtFn := fun _ => 1, lr := 2, eps := 1 } freshModel x0 = .ok 0 ∧
    Train { sqrtFn := fun _ => 1, lr := 2, eps := 1 } freshModel x0 (25/2) =
      .ok (freshModel.learn_one { sqrtFn := fun _ => 1, lr := 2, eps := 1 } x0 (25/2)) ∧
    Predict { sqrtFn := fun _ => 1, lr := 2, eps := 1 }
      (freshModel.learn_one { sqrtFn := fun _ => 1, lr := 2, eps := 1 } x0 (25/2)) x0 =
      .ok 25 ∧
    ¬ (|25/2 - 25| < |(25/2 : ℚ) - 0|) := by
  have hx : x0.valid := by decide
  refine ⟨by norm_num, hx, by norm_num, ?_, ?_, ?_, by norm_num⟩
  · simp [Predict, hx, predict_one_fresh]
  · simp [Train, hx]
  · rw [Predict, if_pos hx, predict_one_after_learn_fresh]
    norm_num

/-- C6 (amended: learning rate in the open interval (0,2), the bound the
counterexample forces): from a fresh model, for every valid input and
every nonzero actual fare, one Train step followed by Predict on the
same input moves the prediction (which becomes lr * actual_fare) strictly
closer to the actual fare than the pre-training prediction 0; and in the
spec §8 scenario (learning rate 1/100, km 5, min 15, hour 14, day 2,
actual fare 12.50, any square-root routine and ε) the fresh prediction
is 0 and the post-training prediction 1/8 lies strictly between 0 and
12.50. -/
theorem C6_single_update_moves_closer :
    (∀ (cfg : ModelConfig) (x : Features) (a : ℚ), x.valid →
       0 < cfg.lr → cfg.lr < 2 → a ≠ 0 →
       Predict cfg freshModel x = .ok 0 ∧
       Train cfg freshModel x a = .ok (freshModel.learn_one cfg x a) ∧
       Predict cfg (freshModel.learn_one cfg x a) x = .ok (cfg.lr * a) ∧
       |a - cfg.lr * a| < |a - 0|) ∧
    (∀ (s : ℚ → ℚ) (e : ℚ),
       Predict { sqrtFn := s, lr := 1/100, eps := e } freshModel x0 = .ok 0 ∧
       Train { sqrtFn := s, lr := 1/100, eps := e } freshModel x0 (25/2) =
         .ok (freshModel.learn_one { sqrtFn := s, lr := 1/100, eps := e } x0 (25/2)) ∧
       Predict { sqrtFn := s, lr := 1/100, eps := e }
         (freshModel.learn_one { sqrtFn := s, lr := 1/100, eps := e } x0 (25/2)) x0 =
         .ok (1/8) ∧
       (0 : ℚ) < 1/8 ∧ (1/8 : ℚ) < 25/2) := by
  constructor
  · intro cfg x a hx hlr hlr2 ha
    refine ⟨by simp [Predict, hx, predict_one_fresh], by simp [Train, hx], ?_, ?_⟩
    · rw [Predict, if_pos hx, predict_one_after_learn_fresh]
    · have hrw : a - cfg.lr * a = a * (1 - cfg.lr) := by ring
      rw [hrw, abs_mul, sub_zero]
      calc |a| * |1 - cfg.lr| < |a| * 1 := by
            refine mul_lt_mul_of_pos_left (abs_lt.mpr ⟨by linarith, by linarith⟩)
              (abs_pos.mpr ha)
        _ = |a| := mul_one _
  · intro s e
    have hx : x0.valid := by decide
    refine ⟨by simp [Predict, hx, predict_one_fresh], by simp [Train, hx], ?_,
      by norm_num, by norm_num⟩
    rw [Predict, if_pos hx, predict_one_after_learn_fresh]
    norm_num

/-- Concrete model configuration with the division-free learning rate 1,
used by witnesses that must evaluate by kernel reduction. -/
def cfg1 : ModelConfig := { sqrtFn := fun _ => 1, lr := 1, eps := 1 }

/-- Witness for C6 (amended) at the scenario input with learning rate 1
and actual fare 12. -/
theorem C6_single_update_moves_closer_witness :
    Predict cfg1 freshModel x0 = .ok 0 ∧
    Train cfg1 freshModel x0 12 = .ok (freshModel.learn_one cfg1 x0 12) ∧
    Predict cfg1 (freshModel.learn_one cfg1 x0 12) x0 = .ok (cfg1.lr * 12) ∧
    |12 - cfg1.lr * 12| < |(12 : ℚ) - 0| :=
  C6_single_update_moves_closer.1 cfg1 x0 12 (by decide) (by decide) (by decide)
    (by decide)

/-- Day numbers produced by day_map never exceed 6. -/
theorem day_map_le_six (d : DayName) : day_map d ≤ 6 := by
  cases d <;> simp [day_map]

/-- Input built by the form satisfies the RawFeatures invariant. -/
theorem x_input_valid (f : TripForm) (hf : f.widgetValid) : (x_input f).valid := by
  obtain ⟨-, -, -, -, h5, h6⟩ := hf
  unfold Features.valid x_input
  dsimp only
  refine ⟨by exact_mod_cast h5, by exact_mod_cast h6, Nat.cast_nonneg _,
    by exact_mod_cast day_map_le_six f.dayText⟩

/-- Concrete trip form used by witnesses: the spec §8 scenario trip (day
2 is Wednesday under day_map). -/
def form0 : TripForm :=
  { distance := 5, duration := 15, hour := 14, dayText := .wednesday }

/-- Widget ranges hold at the concrete witness form. -/
theorem form0_widgetValid : form0.widgetValid := by
  norm_num [TripForm.widgetValid, form0]

/-- C3: when the model artifact file is absent, startup surfaces the
distinct UninitializedModel condition and the app serves no prediction
for any form input (it halts before the tabs). -/
theorem C3_absent_artifact_halts (cfg : ModelConfig) (env : Env) (f : TripForm)
    (h : env.modelFile = none) :
    appStartup env = .error .uninitializedModel ∧ appServe cfg env f = none := by
  constructor
  · simp [appStartup, load_resources, pickleLoad, h]
  · simp [appServe, appStartup, load_resources, pickleLoad, h]

/-- Witness for C3 at a concrete environment with no model file. -/
theorem C3_absent_artifact_halts_witness :
    appStartup { modelFile := none, gcsHour := some [], gcsDay := some [] } =
      .error .uninitializedModel ∧
    appServe cfg1 { modelFile := none, gcsHour := some [], gcsDay := some [] }
      form0 = none :=
  C3_absent_artifact_halts cfg1 _ form0 rfl

/-- C4: with the aggregate tables empty, a valid form submission still
yields exactly the fare-estimate banner (the comparison is skipped, no
failure); tab 2 shows the Gold-data warning; and a GCS read failure at
load time degrades to empty tables while startup still succeeds. -/
theorem C4_stats_unavailable_not_fatal (cfg : ModelConfig) (m : ModelArtifact)
    (f : TripForm) (env : Env) (b : Blob) (dfDay : List DayRow)
    (hf : f.widgetValid) :
    tab1Run cfg m [] f = [.success (m.predict_one cfg (x_input f))] ∧
    tab2Run [] dfDay = .goldWarning ∧
    (env.modelFile = some b → env.gcsHour = none →
      appStartup env = .ok { model := b.payload, dfHour := [], dfDay := [] }) := by
  refine ⟨?_, by simp [tab2Run], ?_⟩
  · simp [tab1Run, Predict, x_input_valid f hf]
  · intro h1 h2
    simp [appStartup, load_resources, pickleLoad, h1, h2]

/-- Witness for C4 at the empty tables, a fresh model and the scenario
form input, in an environment whose GCS reads fail. -/
theorem C4_stats_unavailable_not_fatal_witness :
    tab1Run cfg1 freshModel [] form0 =
      [.success (freshModel.predict_one cfg1 (x_input form0))] ∧
    tab2Run [] [] = .goldWarning ∧
    (({ modelFile := some { versionTag := 1, payload := freshModel },
        gcsHour := none, gcsDay := none : Env }).modelFile =
        some { versionTag := 1, payload := freshModel } →
      ({ modelFile := some { versionTag := 1, payload := freshModel },
         gcsHour := none, gcsDay := none : Env }).gcsHour = none →
      appStartup { modelFile := some { versionTag := 1, payload := freshModel },
                   gcsHour := none, gcsDay := none } =
        .ok { model := freshModel, dfHour := [], dfDay := [] }) :=
  C4_stats_unavailable_not_fatal cfg1 freshModel form0 _ _ [] form0_widgetValid

/-- Fare displayed by tab 1 is exactly the Predict result, whatever the
hourly table holds. -/
theorem shownFare_tab1 (cfg : ModelConfig) (m : ModelArtifact)
    (df : List HourRow) (f : TripForm) :
    shownFare (tab1Run cfg m df f) = (Predict cfg m (x_input f)).toOption := by
  unfold tab1Run
  cases h : Predict cfg m (x_input f) with
  | error e2 => simp [shownFare, Except.toOption]
  | ok p =>
    simp only [Except.toOption]
    split
    · simp [shownFare]
    · cases hh : (df.filter fun r => decide (r.hour = (f.hour : ℚ))).head? <;>
        simp [shownFare]

/-- C5: the fare estimate shown by tab 1 is identical for any two
contents of the hourly aggregate table — the aggregate data is never fed
into the model, whose input is built only from the form fields. -/
theorem C5_stats_never_reach_model (cfg : ModelConfig) (m : ModelArtifact)
    (f : TripForm) (df1 df2 : List HourRow) :
    shownFare (tab1Run cfg m df1 f) = shownFare (tab1Run cfg m df2 f) := by
  rw [shownFare_tab1, shownFare_tab1]

/-- Blob with a version tag that does not match expectedVersion, used to
exhibit that the loader never rejects it. -/
def badBlob : Blob := { versionTag := 2, payload := freshModel }

/-- C7 counterexample: the loader is plain pickle.load — a blob whose
version tag differs from the expected one is loaded unchanged and the
app starts up serving its payload, so a version mismatch is not detected
or rejected, refuting the claim at this concrete blob. -/
theorem C7_counterexample :
    badBlob.versionTag ≠ expectedVersion ∧
    pickleLoad (some badBlob) = some badBlob ∧
    appStartup { modelFile := some badBlob, gcsHour := some [], gcsDay := some [] } =
      .ok { model := badBlob.payload, dfHour := [], dfDay := [] } := by
  refine ⟨by decide, rfl, rfl⟩

/-- C7 (amended: the loader reads the blob as-is and surfaces an absent
file, but performs no version or shape check): pickle.load returns
whatever blob the file holds, unchanged; when a blob is present the app
starts and serves its payload regardless of the version tag; only a
missing file is rejected, as the UninitializedModel halt. -/
theorem C7_load_unchecked (file : Option Blob) (env : Env) (b : Blob)
    (h : env.modelFile = some b) :
    pickleLoad file = file ∧
    (∃ app : RunningApp, appStartup env = .ok app ∧ app.model = b.payload) ∧
    appStartup { env with modelFile := none } = .error .uninitializedModel := by
  refine ⟨rfl, ?_, by simp [appStartup, load_resources, pickleLoad]⟩
  unfold appStartup load_resources pickleLoad
  rw [h]
  cases env.gcsHour <;> cases env.gcsDay <;> exact ⟨_, rfl, rfl⟩

/-- Witness for C7 (amended) at the mismatched blob. -/
theorem C7_load_unchecked_witness :
    pickleLoad (some badBlob) = some badBlob ∧
    (∃ app : RunningApp,
      appStartup { modelFile := some badBlob, gcsHour := some [], gcsDay := some [] } =
        .ok app ∧ app.model = badBlob.payload) ∧
    appStartup { modelFile := none, gcsHour := some [], gcsDay := some [] } =
      .error .uninitializedModel :=
  C7_load_unchecked (some badBlob)
    { modelFile := some badBlob, gcsHour := some [], gcsDay := some [] } badBlob rfl

/-- Request shapes the core exposes (spec §6). -/
inductive Request where
  | predictReq (x : Features)
  | trainReq (x : Features) (actual : ℚ)

/-- Responses of the core: a fare estimate for Predict, a contentless
acknowledgement for Train (it returns no value), or a failure. -/
inductive Response where
  | fareEstimate (q : ℚ)
  | ack
  | failure (e : ModelError)
  deriving DecidableEq

/-- Modelled from the spec: the request interface of the core (spec §6),
dispatching the two request shapes to Predict and Train and pairing the
response with the state after the call. -/
def handleRequest (cfg : ModelConfig) (s : ModelArtifact) :
    Request → Response × ModelArtifact
  | .predictReq x =>
    match Predict cfg s x with
    | .ok q => (.fareEstimate q, s)
    | .error e2 => (.failure e2, s)
  | .trainReq x a =>
    match Train cfg s x a with
    | .ok s2 => (.ack, s2)
    | .error e2 => (.failure e2, s)

/-- C8: every request is one of the two shapes; on well-formed input
Predict answers with a fare estimate and leaves the state untouched,
while Train answers with no value and its whole effect is one encoder
update plus one gradient step (each weight moves by lr·error·encodedᵢ
and the intercept by lr·error, for the error against the prediction on
the freshly re-encoded input). -/
theorem C8_two_request_shapes (cfg : ModelConfig) (s : ModelArtifact)
    (x : Features) (a : ℚ) (hx : x.valid) :
    (∀ r : Request, (∃ y, r = .predictReq y) ∨ (∃ y b, r = .trainReq y b)) ∧
    handleRequest cfg s (.predictReq x) = (.fareEstimate (s.predict_one cfg x), s) ∧
    (handleRequest cfg s (.trainReq x a)).1 = .ack ∧
    (handleRequest cfg s (.trainReq x a)).2.enc = s.enc.update x ∧
    (handleRequest cfg s (.trainReq x a)).2.weights.intercept =
      s.weights.intercept +
        cfg.lr * (a - s.weights.predict ((s.enc.update x).transform cfg x)) ∧
    (handleRequest cfg s (.trainReq x a)).2.weights.w.km =
      s.weights.w.km +
        cfg.lr * (a - s.weights.predict ((s.enc.update x).transform cfg x)) *
          ((s.enc.update x).transform cfg x).km := by
  refine ⟨?_, ?_, ?_, ?_, ?_, ?_⟩
  · intro r
    cases r with
    | predictReq y => exact .inl ⟨y, rfl⟩
    | trainReq y b => exact .inr ⟨y, b, rfl⟩
  · simp [handleRequest, Predict, hx]
  · simp [handleRequest, Train, hx]
  · simp [handleRequest, Train, hx, ModelArtifact.learn_one]
  · simp [handleRequest, Train, hx, ModelArtifact.learn_one, ModelWeights.fit_one]
  · simp [handleRequest, Train, hx, ModelArtifact.learn_one, ModelWeights.fit_one]

/-- Witness for C8 at the fresh model and the scenario input. -/
theorem C8_two_request_shapes_witness :
    (∀ r : Request, (∃ y, r = .predictReq y) ∨ (∃ y b, r = .trainReq y b)) ∧
    handleRequest cfg1 freshModel (.predictReq x0) =
      (.fareEstimate (freshModel.predict_one cfg1 x0), freshModel) ∧
    (handleRequest cfg1 freshModel (.trainReq x0 12)).1 = .ack ∧
    (handleRequest cfg1 freshModel (.trainReq x0 12)).2.enc =
      freshModel.enc.update x0 ∧
    (handleRequest cfg1 freshModel (.trainReq x0 12)).2.weights.intercept =
      freshModel.weights.intercept +
        cfg1.lr * (12 - freshModel.weights.predict
          ((freshModel.enc.update x0).transform cfg1 x0)) ∧
    (handleRequest cfg1 freshModel (.trainReq x0 12)).2.weights.w.km =
      freshModel.weights.w.km +
        cfg1.lr * (12 - freshModel.weights.predict
          ((freshModel.enc.update x0).transform cfg1 x0)) *
          ((freshModel.enc.update x0).transform cfg1 x0).km :=
  C8_two_request_shapes cfg1 freshModel x0 12 (by decide)

/-- C9: any submission the widgets allow produces an x_input satisfying
the RawFeatures invariant by construction: km in [0.1, 200], min in
[1, 300], hour the cast of an integer in [0, 23], day the cast of a
day_map number at most 6 — no malformed input can reach the model
through the form. -/
theorem C9_form_input_always_valid (f : TripForm) (hf : f.widgetValid) :
    (x_input f).valid ∧
    1/10 ≤ (x_input f).km ∧ (x_input f).km ≤ 200 ∧
    1 ≤ (x_input f).min ∧ (x_input f).min ≤ 300 ∧
    (∃ n : ℤ, (x_input f).hour = (n : ℚ) ∧ 0 ≤ n ∧ n ≤ 23) ∧
    (∃ n : ℕ, (x_input f).day = (n : ℚ) ∧ n ≤ 6) := by
  obtain ⟨h1, h2, h3, h4, h5, h6⟩ := hf
  refine ⟨x_input_valid f ⟨h1, h2, h3, h4, h5, h6⟩, h1, h2, ?_, ?_, ?_, ?_⟩
  · show (1 : ℚ) ≤ (f.duration : ℚ)
    exact_mod_cast h3
  · show (f.duration : ℚ) ≤ 300
    exact_mod_cast h4
  · exact ⟨f.hour, rfl, h5, h6⟩
  · exact ⟨day_map f.dayText, rfl, day_map_le_six f.dayText⟩

/-- Witness for C9 at the concrete scenario form. -/
theorem C9_form_input_always_valid_witness :
    (x_input form0).valid ∧
    1/10 ≤ (x_input form0).km ∧ (x_input form0).km ≤ 200 ∧
    1 ≤ (x_input form0).min ∧ (x_input form0).min ≤ 300 ∧
    (∃ n : ℤ, (x_input form0).hour = (n : ℚ) ∧ 0 ≤ n ∧ n ≤ 23) ∧
    (∃ n : ℕ, (x_input form0).day = (n : ℚ) ∧ n ≤ 6) :=
  C9_form_input_always_valid form0 form0_widgetValid

/-- C10: when the hourly table is non-empty but holds no row for the
selected hour, tab 1 renders the success banner with the computed fare
and then the Prediction Error banner — the `.values[0]` lookup raises
even though predict_one already succeeded. -/
theorem C10_missing_hour_row_error (cfg : ModelConfig) (m : ModelArtifact)
    (df : List HourRow) (f : TripForm) (hf : f.widgetValid) (hne : df ≠ [])
    (hmiss : ∀ r ∈ df, r.hour ≠ (f.hour : ℚ)) :
    Predict cfg m (x_input f) = .ok (m.predict_one cfg (x_input f)) ∧
    tab1Run cfg m df f = [.success (m.predict_one cfg (x_input f)), .errorMsg] := by
  have hok : Predict cfg m (x_input f) = .ok (m.predict_one cfg (x_input f)) := by
    simp [Predict, x_input_valid f hf]
  have hfil : (df.filter fun r => decide (r.hour = (f.hour : ℚ))) = [] := by
    rw [List.filter_eq_nil_iff]
    intro r hr
    simpa using hmiss r hr
  refine ⟨hok, ?_⟩
  unfold tab1Run
  rw [hok]
  have hemp : df.isEmpty = false := by
    cases df with
    | nil => exact absurd rfl hne
    | cons a l => rfl
  rw [hemp]
  simp [hfil]

/-- Witness for C10: a one-row table whose only Hour is 5 while the form
selects hour 14. -/
theorem C10_missing_hour_row_error_witness :
    Predict cfg1 freshModel (x_input form0) =
      .ok (freshModel.predict_one cfg1 (x_input form0)) ∧
    tab1Run cfg1 freshModel [{ hour := 5, avgFare := 20 }] form0 =
      [.success (freshModel.predict_one cfg1 (x_input form0)), .errorMsg] :=
  C10_missing_hour_row_error cfg1 freshModel [{ hour := 5, avgFare := 20 }] form0
    form0_widgetValid (by decide) (by decide)

end TaxiFare
